import Mathlib

/-!
Verification of the aggregation/classification core of the mindful-study-hub
repository: the end-of-day summary classifier and trigger policy
(`src/hooks/useEndOfDaySummary.ts`), the wellbeing statistics aggregator
(`src/hooks/useWellbeingStats.ts`), and the schedule-generation edge function
(`supabase/functions/generate-schedule/index.ts`).

JavaScript numbers are modelled as rationals (ℚ); `Math.round` (round half
toward positive infinity) is modelled by `jround`.
-/

namespace MindfulStudyHub

/-- JavaScript `Math.round`: rounds half toward positive infinity. -/
def jround (q : ℚ) : ℤ := ⌊q + 1/2⌋

/-- JavaScript truthiness of a nullable numeric field (`if (x)` skips both
`null` and `0`). -/
def numTruthy : Option ℚ → Bool
  | none => false
  | some v => decide (v ≠ 0)

/-! ## End-of-day summary classifier (`useEndOfDaySummary.ts`, `generateMessage`) -/

/-- The eight narrative states of `DaySummary['state']`. -/
inductive DayState where
  | motivated
  | tired_but_consistent
  | stressed
  | proud
  | discouraged
  | balanced
  | recovering
  | strong_start
deriving DecidableEq, Repr

/-- The scalar feature tuple handed to `generateMessage`
(`Omit<DaySummary, 'message' | 'closingLine' | 'state'>`). -/
structure DayData where
  studyHours : ℚ
  goalHours : ℚ
  completedSessions : ℕ
  totalSessions : ℕ
  dominantEmotion : Option String
  avgFocus : ℚ
  avgStress : ℚ
  emotionCount : ℕ
deriving DecidableEq, Repr

/-- `Number.prototype.toFixed(1)` for the nonnegative study-hour values that
reach the message templates: nearest multiple of 1/10, ties toward +∞,
printed with one decimal digit. -/
def toFixed1 (q : ℚ) : String :=
  let n := jround (q * 10)
  (if n < 0 then "-" else "") ++ toString (n.natAbs / 10) ++ "." ++ toString (n.natAbs % 10)

/-- `generateMessage` from `useEndOfDaySummary.ts` (lines 29-77): the ordered
if/else-if chain mapping the feature tuple to a state, a message and a
closing line. -/
def generateMessage (d : DayData) : DayState × String × String :=
  let completionRate : ℚ := if d.totalSessions > 0 then (d.completedSessions : ℚ) / (d.totalSessions : ℚ) else 0
  let goalReached : Prop := if d.goalHours > 0 then d.studyHours ≥ d.goalHours * 0.8 else d.studyHours > 0
  let isStressed : Prop := d.avgStress ≥ 7
  let isFocused : Prop := d.avgFocus ≥ 6
  let hasEmotionData : Prop := d.emotionCount > 0
  if isStressed ∧ completionRate < 0.5 then
    (DayState.stressed,
     "Today felt heavy, and that's okay. You showed up despite the stress, and that takes real courage. " ++
       (if d.studyHours > 0 then "You still put in " ++ toFixed1 d.studyHours ++ " hours of effort."
        else "Sometimes rest is the most productive choice."),
     "Tomorrow is a fresh start. Be gentle with yourself tonight. 🌙")
  else if completionRate ≥ 0.8 ∧ goalReached then
    (DayState.proud,
     "What an amazing day! You completed " ++ toString d.completedSessions ++ " of " ++
       toString d.totalSessions ++ " sessions and studied for " ++ toFixed1 d.studyHours ++
       " hours. Your dedication really shows.",
     "You should feel proud of yourself. Rest well, champion! ⭐")
  else if completionRate ≥ 0.6 ∧ isFocused then
    (DayState.motivated,
     "Great focus today! You maintained strong concentration throughout your " ++
       toFixed1 d.studyHours ++ " hours of study. " ++
       (if d.completedSessions > 0 then "Completed " ++ toString d.completedSessions ++ " sessions with purpose."
        else ""),
     "Keep this momentum going! You're on a great path. 🚀")
  else if d.studyHours > 0 ∧ completionRate < 0.5 ∧ ¬isStressed then
    (DayState.tired_but_consistent,
     "You might not have hit every goal today, but you showed up. " ++ toFixed1 d.studyHours ++
       " hours of effort is still progress. Consistency matters more than perfection.",
     "Every step forward counts. Sleep well and recharge. 💪")
  else if d.studyHours = 0 ∧ hasEmotionData then
    (DayState.recovering,
     "Today was a rest day, and that's perfectly valid. Your emotions tell a story, and sometimes we need to pause. " ++
       (match d.dominantEmotion with
        | some e => "Feeling \"" ++ e ++ "\" is part of your journey."
        | none => ""),
     "Rest is part of growth. Tomorrow awaits with new energy. 🌱")
  else if completionRate < 0.3 ∧ d.goalHours > 0 then
    (DayState.discouraged,
     "Today didn't go as planned, but setbacks don't define you. You're still here, still trying. That resilience is what matters most.",
     "One tough day doesn't erase your progress. You've got this. 💜")
  else if d.studyHours > 0 ∧ ¬hasEmotionData then
    (DayState.strong_start,
     "You put in " ++ toFixed1 d.studyHours ++ " hours of study today. " ++
       (if d.completedSessions > 0 then "Completed " ++ toString d.completedSessions ++ " sessions." else "") ++
       " Nice work showing up for yourself!",
     "Keep building those habits! You're doing great. ✨")
  else
    (DayState.balanced,
     "Today was a balanced day. " ++
       (if d.studyHours > 0 then "You studied for " ++ toFixed1 d.studyHours ++ " hours"
        else "You took time for yourself") ++
       (if d.emotionCount > 0 then " and checked in with your feelings" else "") ++
       ". That's healthy progress.",
     "Balance is the key to long-term success. Well done! 🌟")

/-! Spec-side rendering of the classifier, written from the specification's
words: an explicit ordered decision list evaluated by first match. -/

/-- Spec wording: `completionRate = completedSessions/totalSessions` (0 if
totalSessions==0). -/
def specCompletionRate (d : DayData) : ℚ :=
  if d.totalSessions = 0 then 0 else (d.completedSessions : ℚ) / (d.totalSessions : ℚ)

/-- Spec wording: `goalReached = (studyHours ≥ 0.8*goalHours)` if goalHours>0,
else `studyHours>0`. -/
def specGoalReached (d : DayData) : Bool :=
  if d.goalHours > 0 then decide (d.studyHours ≥ 0.8 * d.goalHours) else decide (d.studyHours > 0)

/-- The spec's ordered 8-row decision list (row 8 is the default). -/
def specRows : List ((DayData → Bool) × DayState) :=
  [ (fun d => decide (d.avgStress ≥ 7) && decide (specCompletionRate d < 0.5), DayState.stressed),
    (fun d => decide (specCompletionRate d ≥ 0.8) && specGoalReached d, DayState.proud),
    (fun d => decide (specCompletionRate d ≥ 0.6) && decide (d.avgFocus ≥ 6), DayState.motivated),
    (fun d => decide (d.studyHours > 0) && decide (specCompletionRate d < 0.5) && decide (d.avgStress < 7), DayState.tired_but_consistent),
    (fun d => decide (d.studyHours = 0) && decide (d.emotionCount > 0), DayState.recovering),
    (fun d => decide (specCompletionRate d < 0.3) && decide (d.goalHours > 0), DayState.discouraged),
    (fun d => decide (d.studyHours > 0) && decide (d.emotionCount = 0), DayState.strong_start) ]

/-- First-match evaluation of an ordered decision list; rows after the first
matching one are not evaluated, and the default state is `balanced`. -/
def firstMatchState : List ((DayData → Bool) × DayState) → DayData → DayState
  | [], _ => DayState.balanced
  | (p, s) :: rest, d => if p d then s else firstMatchState rest d

/-! ## Per-day feature extraction (`useEndOfDaySummary.ts`, `fetchDaySummary`) -/

/-- A `study_sessions` row, restricted to the fields the hooks read. -/
structure SessionRow where
  duration_seconds : Option ℚ
  createdDay : Fin 7
deriving DecidableEq, Repr

/-- An `emotion_logs` row, restricted to the fields the hooks read.
`createdDay` is the weekday index of `created_at` (`Date.getDay()`). -/
structure EmotionRow where
  emotion : String
  mood : Option String := none
  focus_level : Option ℚ
  stress_level : Option ℚ
  createdDay : Fin 7
deriving DecidableEq, Repr

/-- A `schedule_session_completions` row, restricted to the fields the hooks
read. -/
structure CompletionRow where
  status : String
  subject : String := ""
  duration_seconds : ℚ := 0
deriving DecidableEq, Repr

/-- One session of a schedule's `weekly_plan` JSON; only the `duration`
field (minutes, possibly absent) is read by the hooks. -/
structure PlanSession where
  duration : Option ℚ
deriving DecidableEq, Repr

/-- One day of a schedule's `weekly_plan` JSON. -/
structure PlanDay where
  day : String
  sessions : List PlanSession
deriving DecidableEq, Repr

/-- A `study_schedules` row (the active schedule), restricted to its
`weekly_plan`. -/
structure Schedule where
  weekly_plan : List PlanDay
deriving DecidableEq, Repr

/-- `emotionCounts[e] = (emotionCounts[e] || 0) + 1` over a JS object whose
entries keep first-insertion order. -/
def bumpCount : List (String × ℕ) → String → List (String × ℕ)
  | [], e => [(e, 1)]
  | (k, n) :: rest, e => if k = e then (k, n + 1) :: rest else (k, n) :: bumpCount rest e

/-- `Object.entries(counts).sort((a, b) => b[1] - a[1])[0]`: the stable
descending sort's head is the earliest-inserted entry of maximal count. -/
def firstMaxCount (l : List (String × ℕ)) : Option (String × ℕ) :=
  l.foldl
    (fun best p =>
      match best with
      | none => some p
      | some q => if p.2 > q.2 then some p else some q)
    none

/-- The pure aggregation inside `fetchDaySummary` (lines 119-161 of
`useEndOfDaySummary.ts`): from today's rows and the active schedule to the
feature tuple handed to `generateMessage`. A fetch error leaves its result
`null`, which the code replaces by an empty list (`sessions || []` etc.). -/
def computeDaySummaryFeatures (sessions : Option (List SessionRow))
    (emotions : Option (List EmotionRow)) (completions : Option (List CompletionRow))
    (schedule : Option Schedule) (todayName : String) : DayData :=
  let sessionsList := sessions.getD []
  let studyHours := (sessionsList.foldl (fun sum s => sum + s.duration_seconds.getD 0) 0) / 3600
  let todayPlan : Option PlanDay :=
    match schedule with
    | none => none
    | some sch => sch.weekly_plan.find? (fun p => p.day.toLower == todayName.toLower)
  let totalSessions :=
    match todayPlan with
    | none => 0
    | some p => p.sessions.length
  let goalHours : ℚ :=
    match todayPlan with
    | none => 0
    | some p => (p.sessions.foldl (fun sum s => sum + s.duration.getD 0) 0) / 60
  let completedSessions := ((completions.getD []).filter (fun c => c.status == "completed")).length
  let emotionsList := emotions.getD []
  let emotionCounts := emotionsList.foldl (fun acc e => bumpCount acc e.emotion) []
  let focusSum : ℚ :=
    emotionsList.foldl (fun a e => if numTruthy e.focus_level then a + e.focus_level.getD 0 else a) 0
  let focusCount := (emotionsList.filter (fun e => numTruthy e.focus_level)).length
  let stressSum : ℚ :=
    emotionsList.foldl (fun a e => if numTruthy e.stress_level then a + e.stress_level.getD 0 else a) 0
  let stressCount := (emotionsList.filter (fun e => numTruthy e.stress_level)).length
  let dominantEmotion := (firstMaxCount emotionCounts).map Prod.fst
  { studyHours := studyHours
    goalHours := goalHours
    completedSessions := completedSessions
    totalSessions := totalSessions
    dominantEmotion := dominantEmotion
    avgFocus := if focusCount > 0 then focusSum / (focusCount : ℚ) else 5
    avgStress := if stressCount > 0 then stressSum / (stressCount : ℚ) else 3
    emotionCount := emotionsList.length }

/-! ## Claims C1, C9, C10 -/

/-- C1: the end-of-day classifier returns the state of the first matching
predicate of the spec's ordered 8-row decision list, with
`completionRate = completedSessions/totalSessions` (0 if `totalSessions==0`)
and `goalReached = (studyHours ≥ 0.8*goalHours)` if `goalHours>0`, else
`studyHours>0`; later rows are not consulted once one matches. -/
theorem endOfDay_state_eq_decision_list (d : DayData) :
    (generateMessage d).1 = firstMatchState specRows d := by
  have hc : specCompletionRate d =
      (if d.totalSessions > 0 then (d.completedSessions : ℚ) / (d.totalSessions : ℚ) else 0) := by
    unfold specCompletionRate
    rcases Nat.eq_zero_or_pos d.totalSessions with h | h
    · simp [h]
    · simp [h, Nat.pos_iff_ne_zero.mp h]
  have hm : (0.8 : ℚ) * d.goalHours = d.goalHours * 0.8 := mul_comm _ _
  simp only [generateMessage, apply_ite Prod.fst]
  simp only [firstMatchState, specRows, specGoalReached, hc, hm, Bool.and_eq_true,
    decide_eq_true_eq, Bool.ite_eq_true_distrib]
  simp only [ge_iff_le, gt_iff_lt, not_le, not_lt, Nat.le_zero, and_assoc]

/-- C9: the classifier is a total, deterministic, side-effect-free function:
identical inputs give identical state, message and closing line, and the
returned state is one of the eight narrative states. -/
theorem generateMessage_pure_and_total (d₁ d₂ : DayData) (h : d₁ = d₂) :
    generateMessage d₁ = generateMessage d₂ ∧
      ((generateMessage d₁).1 = DayState.stressed ∨ (generateMessage d₁).1 = DayState.proud ∨
        (generateMessage d₁).1 = DayState.motivated ∨
        (generateMessage d₁).1 = DayState.tired_but_consistent ∨
        (generateMessage d₁).1 = DayState.recovering ∨
        (generateMessage d₁).1 = DayState.discouraged ∨
        (generateMessage d₁).1 = DayState.strong_start ∨
        (generateMessage d₁).1 = DayState.balanced) := by
  subst h
  refine ⟨rfl, ?_⟩
  cases (generateMessage d₁).1 <;> tauto

/-- C9 witness: evaluation at a concrete feature tuple. -/
theorem generateMessage_pure_and_total_witness :
    generateMessage ⟨2, 4, 1, 2, none, 5, 3, 0⟩ = generateMessage ⟨2, 4, 1, 2, none, 5, 3, 0⟩ ∧
      ((generateMessage ⟨2, 4, 1, 2, none, 5, 3, 0⟩).1 = DayState.stressed ∨
        (generateMessage ⟨2, 4, 1, 2, none, 5, 3, 0⟩).1 = DayState.proud ∨
        (generateMessage ⟨2, 4, 1, 2, none, 5, 3, 0⟩).1 = DayState.motivated ∨
        (generateMessage ⟨2, 4, 1, 2, none, 5, 3, 0⟩).1 = DayState.tired_but_consistent ∨
        (generateMessage ⟨2, 4, 1, 2, none, 5, 3, 0⟩).1 = DayState.recovering ∨
        (generateMessage ⟨2, 4, 1, 2, none, 5, 3, 0⟩).1 = DayState.discouraged ∨
        (generateMessage ⟨2, 4, 1, 2, none, 5, 3, 0⟩).1 = DayState.strong_start ∨
        (generateMessage ⟨2, 4, 1, 2, none, 5, 3, 0⟩).1 = DayState.balanced) :=
  generateMessage_pure_and_total ⟨2, 4, 1, 2, none, 5, 3, 0⟩ ⟨2, 4, 1, 2, none, 5, 3, 0⟩ rfl

/-- Helper for C10: with the default metric values `avgFocus = 5` and
`avgStress = 3`, the classifier's rows 1 and 3 cannot fire. -/
lemma state_not_stressed_motivated_of_defaults (d : DayData)
    (h5 : d.avgFocus = 5) (h3 : d.avgStress = 3) :
    (generateMessage d).1 ≠ DayState.stressed ∧ (generateMessage d).1 ≠ DayState.motivated := by
  have e1 : ((3 : ℚ) ≥ 7) = False := by norm_num
  have e2 : ((5 : ℚ) ≥ 6) = False := by norm_num
  constructor <;>
  · simp only [generateMessage, apply_ite Prod.fst, h3, h5, e1, e2, false_and, and_false,
      if_false]
    split_ifs <;> simp

/-- C10: when the day's emotion logs carry no (truthy) focus-level values the
feature tuple has `avgFocus = 5`, when they carry no stress-level values it
has `avgStress = 3`, and with no emotion metrics at all neither predicate 1
(`avgStress ≥ 7`) nor predicate 3 (whose focus condition is `avgFocus ≥ 6`)
can fire. -/
theorem daySummary_default_focus_stress (sessions : Option (List SessionRow))
    (emotions : Option (List EmotionRow)) (completions : Option (List CompletionRow))
    (schedule : Option Schedule) (todayName : String) :
    ((∀ e ∈ emotions.getD [], numTruthy e.focus_level = false) →
        (computeDaySummaryFeatures sessions emotions completions schedule todayName).avgFocus = 5) ∧
      ((∀ e ∈ emotions.getD [], numTruthy e.stress_level = false) →
        (computeDaySummaryFeatures sessions emotions completions schedule todayName).avgStress = 3) ∧
      ((∀ e ∈ emotions.getD [], numTruthy e.focus_level = false ∧ numTruthy e.stress_level = false) →
        (generateMessage (computeDaySummaryFeatures sessions emotions completions schedule todayName)).1 ≠
            DayState.stressed ∧
          (generateMessage (computeDaySummaryFeatures sessions emotions completions schedule todayName)).1 ≠
            DayState.motivated) := by
  have hfo : (∀ e ∈ emotions.getD [], numTruthy e.focus_level = false) →
      (computeDaySummaryFeatures sessions emotions completions schedule todayName).avgFocus = 5 := by
    intro h
    have hf : (emotions.getD []).filter (fun e => numTruthy e.focus_level) = [] :=
      List.filter_eq_nil_iff.mpr (by intro a ha; simp [h a ha])
    simp only [computeDaySummaryFeatures, hf]
    simp
  have hst : (∀ e ∈ emotions.getD [], numTruthy e.stress_level = false) →
      (computeDaySummaryFeatures sessions emotions completions schedule todayName).avgStress = 3 := by
    intro h
    have hf : (emotions.getD []).filter (fun e => numTruthy e.stress_level) = [] :=
      List.filter_eq_nil_iff.mpr (by intro a ha; simp [h a ha])
    simp only [computeDaySummaryFeatures, hf]
    simp
  refine ⟨hfo, hst, ?_⟩
  intro h
  have h5 := hfo (fun e he => (h e he).1)
  have h3 := hst (fun e he => (h e he).2)
  exact state_not_stressed_motivated_of_defaults _ h5 h3

/-- C10 witness: one emotion log with neither metric, so the defaults apply. -/
theorem daySummary_default_focus_stress_witness :
    (computeDaySummaryFeatures none (some [⟨"happy", none, none, none, 0⟩]) none none
          "Monday").avgFocus = 5 ∧
      (computeDaySummaryFeatures none (some [⟨"happy", none, none, none, 0⟩]) none none
            "Monday").avgStress = 3 ∧
      ((generateMessage (computeDaySummaryFeatures none (some [⟨"happy", none, none, none, 0⟩])
                none none "Monday")).1 ≠ DayState.stressed ∧
        (generateMessage (computeDaySummaryFeatures none (some [⟨"happy", none, none, none, 0⟩])
                none none "Monday")).1 ≠ DayState.motivated) := by
  have t := daySummary_default_focus_stress none (some [⟨"happy", none, none, none, 0⟩]) none none
    "Monday"
  exact ⟨t.1 (by intro e he; simp at he; subst he; rfl),
    t.2.1 (by intro e he; simp at he; subst he; rfl),
    t.2.2 (by intro e he; simp at he; subst he; exact ⟨rfl, rfl⟩)⟩

/-! ## Wellbeing statistics aggregator (`useWellbeingStats.ts`, `fetchStats`)

Each local constant of `fetchStats` is modelled by a definition in the
`Wellbeing` namespace; `computeWellbeingStats` assembles them into the values
passed to `setStats` / `setWeeklyAnalytics`. -/

/-- The `WellbeingStats` interface. JS numbers produced by `Math.round` are
integers; the rest stay rational. -/
structure WellbeingStats where
  wellnessScore : ℤ
  burnoutRisk : String
  breakEfficiency : ℤ
  avgFocusLevel : ℤ
  avgStressLevel : ℤ
  moodTrends : List (String × ℕ)
  weeklyEmotions : List (String × ℤ × ℤ × String)
  focusTrend : List ℚ
  stressTrend : List ℚ
  totalBreakTime : ℤ
  totalStudyTime : ℚ
  emotionDistribution : List (String × ℤ)
deriving DecidableEq, Repr

/-- The `WeeklyAnalytics` interface (`breakVsStudyPct` is the source's
`breakVsStudyRatio` field). -/
structure WeeklyAnalytics where
  totalStudyHours : ℚ
  completionRate : ℤ
  avgFocusLevel : ℤ
  avgStressLevel : ℤ
  breakVsStudyPct : ℤ
  dailyBreakdown : List (String × ℚ × ℚ × ℕ)
  emotionTrends : List (String × String × ℤ × ℤ)
  subjectDistribution : List (String × ℚ)
deriving DecidableEq, Repr

/-- Stable insertion: `x` goes after every already-placed element whose key is
≥ its own, modelling the stable descending `Array.sort` comparators. -/
def insertDescBy {α : Type} (key : α → ℚ) (x : α) : List α → List α
  | [] => [x]
  | y :: ys => if key y < key x then x :: y :: ys else y :: insertDescBy key x ys

/-- Stable descending sort by `key` (JS `.sort((a, b) => key b - key a)`). -/
def sortDescBy {α : Type} (key : α → ℚ) (l : List α) : List α :=
  l.foldl (fun acc x => insertDescBy key x acc) []

/-- `["Sun", ..., "Sat"]` as in the source. -/
def dayNames : List String := ["Sun", "Mon", "Tue", "Wed", "Thu", "Fri", "Sat"]

/-- `dayNames[d.getDay()]`; total because the weekday index is below 7. -/
def dayNameOf (i : Fin 7) : String := dayNames.getD i.1 ""

/-- `Array.prototype.slice(-7)`: the last (up to) 7 elements. -/
def takeLast {α : Type} (n : ℕ) (l : List α) : List α := l.drop (l.length - n)

/-- `acc[k] = (acc[k] || 0) + v` over a JS object in insertion order. -/
def bumpAdd : List (String × ℚ) → String → ℚ → List (String × ℚ)
  | [], k, v => [(k, v)]
  | (k', v') :: rest, k, v =>
    if k' = k then (k', v' + v) :: rest else (k', v') :: bumpAdd rest k v

/-- JS `a || b` on a nullable string: `null` and the empty string are falsy. -/
def strOr (o : Option String) (dflt : String) : String :=
  match o with
  | some s => if s = "" then dflt else s
  | none => dflt

namespace Wellbeing

/-- Line 111: the truthy `focus_level` values of the week's emotion logs. -/
def focusLevels (l : List EmotionRow) : List ℚ :=
  (l.filter (fun e => numTruthy e.focus_level)).map (fun e => e.focus_level.getD 0)

/-- Line 112: the truthy `stress_level` values of the week's emotion logs. -/
def stressLevels (l : List EmotionRow) : List ℚ :=
  (l.filter (fun e => numTruthy e.stress_level)).map (fun e => e.stress_level.getD 0)

/-- Lines 114-116: rounded mean of the focus values, 0 if there are none. -/
def avgFocusLevel (l : List EmotionRow) : ℤ :=
  if (focusLevels l).length > 0 then
    jround (((focusLevels l).foldl (· + ·) 0) / ((focusLevels l).length : ℚ))
  else 0

/-- Lines 117-119: rounded mean of the stress values, 0 if there are none. -/
def avgStressLevel (l : List EmotionRow) : ℤ :=
  if (stressLevels l).length > 0 then
    jround (((stressLevels l).foldl (· + ·) 0) / ((stressLevels l).length : ℚ))
  else 0

/-- Lines 122-129: count per `mood || emotion` label, descending by count. -/
def moodTrends (l : List EmotionRow) : List (String × ℕ) :=
  sortDescBy (fun p => (p.2 : ℚ))
    (l.foldl (fun acc e => bumpCount acc (strOr e.mood e.emotion)) [])

/-- Lines 131-148: per-weekday focus/stress means and last-logged emotion. -/
def weeklyEmotions (l : List EmotionRow) : List (String × ℤ × ℤ × String) :=
  dayNames.map (fun day =>
    let dayEmotions := l.filter (fun e => dayNameOf e.createdDay == day)
    let dayFocus := (dayEmotions.filter (fun e => numTruthy e.focus_level)).map
      (fun e => e.focus_level.getD 0)
    let dayStress := (dayEmotions.filter (fun e => numTruthy e.stress_level)).map
      (fun e => e.stress_level.getD 0)
    (day,
     if dayFocus.length > 0 then jround ((dayFocus.foldl (· + ·) 0) / (dayFocus.length : ℚ))
     else 0,
     if dayStress.length > 0 then jround ((dayStress.foldl (· + ·) 0) / (dayStress.length : ℚ))
     else 0,
     match dayEmotions.getLast? with
     | some e => e.emotion
     | none => "neutral"))

/-- Line 155: total study seconds of the week's sessions. -/
def totalStudyTime (sl : List SessionRow) : ℚ :=
  sl.foldl (fun acc s => acc + s.duration_seconds.getD 0) 0

/-- Line 158: estimated break seconds, `Math.round(totalStudyTime * 0.2)`. -/
def totalBreakTime (sl : List SessionRow) : ℤ :=
  jround (totalStudyTime sl * 0.2)

/-- Lines 160-171: rounded percentage share per emotion label, descending
(`totalEmotions` is `emotionsList.length || 1`). -/
def emotionDistribution (l : List EmotionRow) : List (String × ℤ) :=
  let totalEmotions : ℕ := if l.length = 0 then 1 else l.length
  sortDescBy (fun p => (p.2 : ℚ))
    ((l.foldl (fun acc e => bumpCount acc e.emotion) []).map
      (fun p => (p.1, jround ((p.2 : ℚ) / (totalEmotions : ℚ) * 100))))

/-- Lines 173-177: the wellness score. -/
def wellnessScore (l : List EmotionRow) : ℤ :=
  jround ((avgFocusLevel l : ℚ) * 0.4 + (100 - (avgStressLevel l : ℚ)) * 0.3 +
    min ((l.length : ℚ) * 5) 30)

/-- Lines 179-185: the burnout risk label, first matching rule wins. -/
def burnoutRisk (l : List EmotionRow) (sl : List SessionRow) : String :=
  if (avgStressLevel l : ℚ) > 70 ∨ totalStudyTime sl > 25 * 3600 then "High"
  else if (avgStressLevel l : ℚ) > 50 ∨ totalStudyTime sl > 20 * 3600 then "Medium"
  else "Low"

/-- Lines 187-190: the break efficiency percentage, 0 without study time. -/
def breakEfficiency (sl : List SessionRow) : ℤ :=
  if totalStudyTime sl > 0 then
    min (jround ((totalBreakTime sl : ℚ) / (totalStudyTime sl * 0.25) * 100)) 100
  else 0

/-- Lines 211-215: sessions planned across the active schedule's weekly plan. -/
def plannedSessions : Option Schedule → ℕ
  | some sch => sch.weekly_plan.foldl (fun acc d => acc + d.sessions.length) 0
  | none => 0

/-- Lines 216-218: completion records as a rounded percentage of planned
sessions, 0 if none are planned. -/
def completionRate (cl : List CompletionRow) (schedule : Option Schedule) : ℤ :=
  if plannedSessions schedule > 0 then
    jround ((cl.length : ℚ) / (plannedSessions schedule : ℚ) * 100)
  else 0

/-- Lines 220-235: per-weekday study/break hours (one decimal) and session
counts. -/
def dailyBreakdown (sl : List SessionRow) : List (String × ℚ × ℚ × ℕ) :=
  dayNames.map (fun day =>
    let daySessions := sl.filter (fun s => dayNameOf s.createdDay == day)
    let studySeconds := daySessions.foldl (fun acc s => acc + s.duration_seconds.getD 0) 0
    let breakSeconds : ℤ := jround (studySeconds * 0.2)
    (day, (jround (studySeconds / 3600 * 10) : ℚ) / 10,
      (jround ((breakSeconds : ℚ) / 3600 * 10) : ℚ) / 10, daySessions.length))

/-- Lines 245-256: hours per subject from completion records, one decimal,
descending. -/
def subjectDistribution (cl : List CompletionRow) : List (String × ℚ) :=
  sortDescBy (fun p => p.2)
    ((cl.foldl (fun acc c => bumpAdd acc c.subject (c.duration_seconds / 3600)) []).map
      (fun p => (p.1, (jround (p.2 * 10) : ℚ) / 10)))

end Wellbeing

/-- The pure aggregation inside `fetchStats` (lines 59-274 of
`useWellbeingStats.ts`): from the week's rows and the active schedule to the
`WellbeingStats` and `WeeklyAnalytics` values passed to `setStats` /
`setWeeklyAnalytics`. A failed fetch leaves its data `null`, which the code
replaces by an empty list (`emotions || []` etc.), so the function is total:
it cannot throw. -/
def computeWellbeingStats (emotions : Option (List EmotionRow))
    (sessions : Option (List SessionRow)) (completions : Option (List CompletionRow))
    (schedule : Option Schedule) : WellbeingStats × WeeklyAnalytics :=
  let el := emotions.getD []
  let sl := sessions.getD []
  let cl := completions.getD []
  ({ wellnessScore := Wellbeing.wellnessScore el
     burnoutRisk := Wellbeing.burnoutRisk el sl
     breakEfficiency := Wellbeing.breakEfficiency sl
     avgFocusLevel := Wellbeing.avgFocusLevel el
     avgStressLevel := Wellbeing.avgStressLevel el
     moodTrends := Wellbeing.moodTrends el
     weeklyEmotions := Wellbeing.weeklyEmotions el
     focusTrend := takeLast 7 (Wellbeing.focusLevels el)
     stressTrend := takeLast 7 (Wellbeing.stressLevels el)
     totalBreakTime := Wellbeing.totalBreakTime sl
     totalStudyTime := Wellbeing.totalStudyTime sl
     emotionDistribution := Wellbeing.emotionDistribution el },
   { totalStudyHours := (jround (Wellbeing.totalStudyTime sl / 3600 * 10) : ℚ) / 10
     completionRate := Wellbeing.completionRate cl schedule
     avgFocusLevel := Wellbeing.avgFocusLevel el
     avgStressLevel := Wellbeing.avgStressLevel el
     breakVsStudyPct :=
       if Wellbeing.totalStudyTime sl > 0 then
         jround ((Wellbeing.totalBreakTime sl : ℚ) / Wellbeing.totalStudyTime sl * 100)
       else 20
     dailyBreakdown := Wellbeing.dailyBreakdown sl
     emotionTrends := (Wellbeing.weeklyEmotions el).map (fun we => (we.1, we.2.2.2, we.2.1, we.2.2.1))
     subjectDistribution := Wellbeing.subjectDistribution cl })

/-- `jround` is the identity on integers. -/
lemma jround_intCast (n : ℤ) : jround (n : ℚ) = n := by
  unfold jround
  rw [Int.floor_eq_iff]
  norm_num

/-! ## Claims C3-C7 -/

/-- C3 counterexample: on the empty weekly window the aggregator's wellness
score is 30, not 0 — the stress term `(100 - 0) * 0.3` contributes 30 even
with no data. -/
theorem emptyWeek_wellnessScore_not_zero :
    (computeWellbeingStats none none none none).1.wellnessScore = 30 ∧
      (computeWellbeingStats none none none none).1.wellnessScore ≠ 0 := by
  constructor <;>
    norm_num [computeWellbeingStats, Wellbeing.wellnessScore, Wellbeing.avgFocusLevel,
      Wellbeing.avgStressLevel, Wellbeing.focusLevels, Wellbeing.stressLevels, numTruthy, jround]

/-- C3 (amended): on an empty weekly window — each fetch yielding `null`
(treated as `[]`) or an empty list, and no active schedule — the aggregator
returns without throwing (it is a total function) and produces the defaults:
burnout risk "Low", wellness score 30, zero averages, zero break efficiency,
zero study/break time, empty focus/stress trends and distributions, a zeroed
"neutral" entry per weekday, and completion rate 0. -/
theorem emptyWeek_defaults (emotions : Option (List EmotionRow))
    (sessions : Option (List SessionRow)) (completions : Option (List CompletionRow))
    (he : emotions = none ∨ emotions = some []) (hs : sessions = none ∨ sessions = some [])
    (hc : completions = none ∨ completions = some []) :
    (computeWellbeingStats emotions sessions completions none).1.burnoutRisk = "Low" ∧
      (computeWellbeingStats emotions sessions completions none).1.wellnessScore = 30 ∧
      (computeWellbeingStats emotions sessions completions none).1.avgFocusLevel = 0 ∧
      (computeWellbeingStats emotions sessions completions none).1.avgStressLevel = 0 ∧
      (computeWellbeingStats emotions sessions completions none).1.breakEfficiency = 0 ∧
      (computeWellbeingStats emotions sessions completions none).1.totalStudyTime = 0 ∧
      (computeWellbeingStats emotions sessions completions none).1.totalBreakTime = 0 ∧
      (computeWellbeingStats emotions sessions completions none).1.focusTrend = [] ∧
      (computeWellbeingStats emotions sessions completions none).1.stressTrend = [] ∧
      (computeWellbeingStats emotions sessions completions none).1.moodTrends = [] ∧
      (computeWellbeingStats emotions sessions completions none).1.emotionDistribution = [] ∧
      (computeWellbeingStats emotions sessions completions none).1.weeklyEmotions =
        dayNames.map (fun day => (day, 0, 0, "neutral")) ∧
      (computeWellbeingStats emotions sessions completions none).2.completionRate = 0 := by
  have he' : emotions.getD [] = [] := by rcases he with h | h <;> simp [h]
  have hs' : sessions.getD [] = [] := by rcases hs with h | h <;> simp [h]
  have hc' : completions.getD [] = [] := by rcases hc with h | h <;> simp [h]
  refine ⟨?_, ?_, ?_, ?_, ?_, ?_, ?_, ?_, ?_, ?_, ?_, ?_, ?_⟩ <;>
    norm_num [computeWellbeingStats, he', hs', hc', Wellbeing.burnoutRisk,
      Wellbeing.wellnessScore, Wellbeing.avgFocusLevel, Wellbeing.avgStressLevel,
      Wellbeing.focusLevels, Wellbeing.stressLevels, Wellbeing.breakEfficiency,
      Wellbeing.totalStudyTime, Wellbeing.totalBreakTime, Wellbeing.moodTrends,
      Wellbeing.emotionDistribution, Wellbeing.weeklyEmotions, Wellbeing.completionRate,
      Wellbeing.plannedSessions, takeLast, sortDescBy, jround]

/-- C3 witness: all four fetches failed (`null` data). -/
theorem emptyWeek_defaults_witness :
    (computeWellbeingStats none none none none).1.burnoutRisk = "Low" ∧
      (computeWellbeingStats none none none none).1.wellnessScore = 30 ∧
      (computeWellbeingStats none none none none).1.avgFocusLevel = 0 ∧
      (computeWellbeingStats none none none none).1.avgStressLevel = 0 ∧
      (computeWellbeingStats none none none none).1.breakEfficiency = 0 ∧
      (computeWellbeingStats none none none none).1.totalStudyTime = 0 ∧
      (computeWellbeingStats none none none none).1.totalBreakTime = 0 ∧
      (computeWellbeingStats none none none none).1.focusTrend = [] ∧
      (computeWellbeingStats none none none none).1.stressTrend = [] ∧
      (computeWellbeingStats none none none none).1.moodTrends = [] ∧
      (computeWellbeingStats none none none none).1.emotionDistribution = [] ∧
      (computeWellbeingStats none none none none).1.weeklyEmotions =
        dayNames.map (fun day => (day, 0, 0, "neutral")) ∧
      (computeWellbeingStats none none none none).2.completionRate = 0 :=
  emptyWeek_defaults none none none (Or.inl rfl) (Or.inl rfl) (Or.inl rfl)

/-- Ten emotion logs at focus 80 and stress 20, realising the spec's
wellness-score example. -/
def tenLogs : List EmotionRow := List.replicate 10 ⟨"calm", none, some 80, some 20, 0⟩

/-- C4: the wellness score is
`round(0.4*avgFocus + 0.3*(100-avgStress) + min(emotionCount*5, 30))`; in
particular ten logs at focus 80 / stress 20 score 86. -/
theorem wellnessScore_formula (emotions : Option (List EmotionRow))
    (sessions : Option (List SessionRow)) (completions : Option (List CompletionRow))
    (schedule : Option Schedule) :
    ((computeWellbeingStats emotions sessions completions schedule).1.wellnessScore =
        jround (0.4 * ((computeWellbeingStats emotions sessions completions schedule).1.avgFocusLevel : ℚ) +
          0.3 * (100 - ((computeWellbeingStats emotions sessions completions schedule).1.avgStressLevel : ℚ)) +
          min (((emotions.getD []).length : ℚ) * 5) 30)) ∧
      (computeWellbeingStats (some tenLogs) none none none).1.wellnessScore = 86 := by
  constructor
  · simp only [computeWellbeingStats, Wellbeing.wellnessScore]
    congr 1
    ring
  · norm_num [computeWellbeingStats, Wellbeing.wellnessScore, Wellbeing.avgFocusLevel,
      Wellbeing.avgStressLevel, Wellbeing.focusLevels, Wellbeing.stressLevels, tenLogs,
      List.replicate, numTruthy, jround]

/-- C5: burnout risk is "High" if `avgStress > 70` or study time exceeds 25h,
else "Medium" if `avgStress > 50` or study time exceeds 20h, else "Low",
first match winning; equivalently it is "Medium" exactly when no High
condition holds and (`avgStress > 50` or study time > 72000s). -/
theorem burnoutRisk_ordering (emotions : Option (List EmotionRow))
    (sessions : Option (List SessionRow)) (completions : Option (List CompletionRow))
    (schedule : Option Schedule) :
    ((computeWellbeingStats emotions sessions completions schedule).1.burnoutRisk =
        (if ((computeWellbeingStats emotions sessions completions schedule).1.avgStressLevel : ℚ) > 70 ∨
            (computeWellbeingStats emotions sessions completions schedule).1.totalStudyTime > 25 * 3600 then
          "High"
         else if ((computeWellbeingStats emotions sessions completions schedule).1.avgStressLevel : ℚ) > 50 ∨
            (computeWellbeingStats emotions sessions completions schedule).1.totalStudyTime > 20 * 3600 then
          "Medium"
         else "Low")) ∧
      ((computeWellbeingStats emotions sessions completions schedule).1.burnoutRisk = "Medium" ↔
        ¬(((computeWellbeingStats emotions sessions completions schedule).1.avgStressLevel : ℚ) > 70 ∨
            (computeWellbeingStats emotions sessions completions schedule).1.totalStudyTime > 25 * 3600) ∧
          (((computeWellbeingStats emotions sessions completions schedule).1.avgStressLevel : ℚ) > 50 ∨
            (computeWellbeingStats emotions sessions completions schedule).1.totalStudyTime > 72000)) := by
  obtain ⟨r, hr⟩ : ∃ r, (computeWellbeingStats emotions sessions completions schedule).1 = r :=
    ⟨_, rfl⟩
  have hb : r.burnoutRisk =
      (if (r.avgStressLevel : ℚ) > 70 ∨ r.totalStudyTime > 25 * 3600 then "High"
       else if (r.avgStressLevel : ℚ) > 50 ∨ r.totalStudyTime > 20 * 3600 then "Medium"
       else "Low") := by
    rw [← hr]
    simp only [computeWellbeingStats, Wellbeing.burnoutRisk]
  rw [hr, hb]
  have h72 : (20 : ℚ) * 3600 = 72000 := by norm_num
  refine ⟨rfl, ?_⟩
  rw [h72]
  split_ifs <;> simp [*]

/-- C6 counterexample: one second of study time gives break efficiency 0, not
80 — the estimated break time is `Math.round(0.2 * 1) = 0` whole seconds. -/
theorem breakEfficiency_not_always_80 :
    (computeWellbeingStats none (some [⟨some 1, 0⟩]) none none).1.totalStudyTime = 1 ∧
      (computeWellbeingStats none (some [⟨some 1, 0⟩]) none none).1.breakEfficiency = 0 ∧
      (computeWellbeingStats none (some [⟨some 1, 0⟩]) none none).1.breakEfficiency ≠ 80 := by
  refine ⟨?_, ?_, ?_⟩ <;>
    norm_num [computeWellbeingStats, Wellbeing.breakEfficiency, Wellbeing.totalBreakTime,
      Wellbeing.totalStudyTime, jround]

/-- C6 (amended): break efficiency is
`min(round(round(0.2*t) / (t*0.25) * 100), 100)` for `t > 0` (0 for `t = 0`),
the estimated break seconds being rounded to a whole number; it equals 80
whenever the total study time is a positive multiple of 5 seconds (where
`round(0.2*t) = 0.2*t` exactly), but not for arbitrary positive `t`. -/
theorem breakEfficiency_formula (emotions : Option (List EmotionRow))
    (sessions : Option (List SessionRow)) (completions : Option (List CompletionRow))
    (schedule : Option Schedule) :
    ((computeWellbeingStats emotions sessions completions schedule).1.breakEfficiency =
        (if (computeWellbeingStats emotions sessions completions schedule).1.totalStudyTime > 0 then
          min (jround ((jround ((computeWellbeingStats emotions sessions completions schedule).1.totalStudyTime * 0.2) : ℚ) /
            ((computeWellbeingStats emotions sessions completions schedule).1.totalStudyTime * 0.25) * 100)) 100
         else 0)) ∧
      (∀ k : ℕ, 0 < k →
        (computeWellbeingStats emotions sessions completions schedule).1.totalStudyTime = 5 * k →
        (computeWellbeingStats emotions sessions completions schedule).1.breakEfficiency = 80) := by
  obtain ⟨r, hr⟩ : ∃ r, (computeWellbeingStats emotions sessions completions schedule).1 = r :=
    ⟨_, rfl⟩
  have hb : r.breakEfficiency =
      (if r.totalStudyTime > 0 then
        min (jround ((jround (r.totalStudyTime * 0.2) : ℚ) / (r.totalStudyTime * 0.25) * 100)) 100
       else 0) := by
    rw [← hr]
    simp only [computeWellbeingStats, Wellbeing.breakEfficiency, Wellbeing.totalBreakTime]
  rw [hr, hb]
  refine ⟨rfl, ?_⟩
  intro k hk ht
  have hk' : ((k : ℚ)) ≠ 0 := by positivity
  have h02 : (5 : ℚ) * k * 0.2 = ((k : ℤ) : ℚ) := by push_cast; ring
  have h80 : ((k : ℤ) : ℚ) / ((5 : ℚ) * k * 0.25) * 100 = ((80 : ℤ) : ℚ) := by
    push_cast
    field_simp
    ring
  have hpos : (0 : ℚ) < 5 * k := by positivity
  rw [ht, if_pos hpos, h02, jround_intCast, h80, jround_intCast]
  norm_num

/-- C6 witness: a 5-second session reaches break efficiency 80. -/
theorem breakEfficiency_formula_witness :
    (computeWellbeingStats none (some [⟨some 5, 0⟩]) none none).1.breakEfficiency = 80 :=
  (breakEfficiency_formula none (some [⟨some 5, 0⟩]) none none).2 1 (by norm_num)
    (by norm_num [computeWellbeingStats, Wellbeing.totalStudyTime])

/-- C7 counterexample: with one completion record and two planned sessions the
stored completion rate is the rounded percentage 50, not the ratio 1/2. -/
theorem completionRate_is_percentage :
    (computeWellbeingStats none none (some [⟨"completed", "Math", 0⟩])
          (some ⟨[⟨"Monday", [⟨none⟩, ⟨none⟩]⟩]⟩)).2.completionRate = 50 ∧
      ((computeWellbeingStats none none (some [⟨"completed", "Math", 0⟩])
            (some ⟨[⟨"Monday", [⟨none⟩, ⟨none⟩]⟩]⟩)).2.completionRate : ℚ) ≠ 1 / 2 := by
  constructor <;>
    norm_num [computeWellbeingStats, Wellbeing.completionRate, Wellbeing.plannedSessions,
      jround]

/-- C7 (amended): the weekly completion rate is the rounded percentage
`round(100 * completions / plannedSessions)`, 0 when no sessions are planned,
and 0 when no schedule is active. -/
theorem completionRate_formula (emotions : Option (List EmotionRow))
    (sessions : Option (List SessionRow)) (completions : Option (List CompletionRow))
    (schedule : Option Schedule) :
    ((computeWellbeingStats emotions sessions completions schedule).2.completionRate =
        (if Wellbeing.plannedSessions schedule > 0 then
          jround (100 * ((completions.getD []).length : ℚ) / (Wellbeing.plannedSessions schedule : ℚ))
         else 0)) ∧
      (computeWellbeingStats emotions sessions completions none).2.completionRate = 0 := by
  constructor
  · simp only [computeWellbeingStats, Wellbeing.completionRate]
    split_ifs with h
    · congr 1
      ring
    · rfl
  · norm_num [computeWellbeingStats, Wellbeing.completionRate, Wellbeing.plannedSessions]

/-! ## End-of-day popup trigger policy (`useEndOfDaySummary.ts`, lines 225-270)

One mounted component over one calendar day. The state holds the two
localStorage keys (`mindsync_last_summary_date`, modelled as `some today` iff
the stored date equals today; `mindsync_sessions_complete_shown`), the
`hasTriggeredRef` flag, and the `showPopup` React state. Events are the
evaluations of `checkAndShowSummary` (on mount and every 30 minutes), of
`triggerOnAllSessionsComplete` (on mount and on debounced realtime
completion changes), and of `dismissSummary`. `fetchOk` models whether
`fetchDaySummary` returned non-null data. -/

/-- The mutable state the two triggers and the dismissal consult. -/
structure TriggerState where
  lastSummaryDate : Option ℕ
  completeShownDate : Option ℕ
  hasTriggered : Bool
  showPopup : Bool
deriving DecidableEq, Repr

/-- One evaluation of a trigger or of the dismissal handler. -/
inductive TriggerEvent where
  | timeCheck (hour : ℕ) (fetchOk : Bool)
  | completionEvent (allComplete : Bool) (fetchOk : Bool)
  | dismiss
deriving DecidableEq, Repr

/-- Fresh day, nothing shown or dismissed yet, component just mounted. -/
def initialTriggerState : TriggerState := ⟨none, none, false, false⟩

/-- One event's effect; the boolean flags whether the show action
(`setSummary` + `setShowPopup(true)`) was performed.
`timeCheck` is `checkAndShowSummary` (lines 245-262): it never writes the
"shown today" marker. `completionEvent` is `triggerOnAllSessionsComplete`
(lines 225-243). `dismiss` is `dismissSummary` (lines 264-270). -/
def step (today : ℕ) (s : TriggerState) : TriggerEvent → TriggerState × Bool
  | .timeCheck hour fetchOk =>
    if hour < 20 then (s, false)
    else if s.lastSummaryDate = some today then (s, false)
    else if fetchOk then ({ s with showPopup := true }, true)
    else (s, false)
  | .completionEvent allComplete fetchOk =>
    if s.hasTriggered then (s, false)
    else if s.completeShownDate = some today then (s, false)
    else if allComplete && fetchOk then
      ({ s with hasTriggered := true, showPopup := true, completeShownDate := some today }, true)
    else (s, false)
  | .dismiss =>
    ({ lastSummaryDate := some today, completeShownDate := some today,
       hasTriggered := true, showPopup := false }, false)

/-- Run a day's worth of events. -/
def run (today : ℕ) : TriggerState → List TriggerEvent → TriggerState
  | s, [] => s
  | s, e :: es => run today (step today s e).1 es

/-- How many times the show action is performed along a trace. -/
def showCount (today : ℕ) : TriggerState → List TriggerEvent → ℕ
  | _, [] => 0
  | s, e :: es => (if (step today s e).2 then 1 else 0) + showCount today (step today s e).1 es

/-- How many of those show actions the all-sessions-complete trigger performs. -/
def completionFires (today : ℕ) : TriggerState → List TriggerEvent → ℕ
  | _, [] => 0
  | s, e :: es =>
    (match e with
     | .completionEvent _ _ => if (step today s e).2 then 1 else 0
     | _ => 0) + completionFires today (step today s e).1 es

/-- How many times the popup goes from hidden to visible along a trace. -/
def visibleTransitions (today : ℕ) : TriggerState → List TriggerEvent → ℕ
  | _, [] => 0
  | s, e :: es =>
    (if s.showPopup = false ∧ ((step today s e).1).showPopup = true then 1 else 0) +
      visibleTransitions today (step today s e).1 es

/-- Both "shown today" markers are set (the state a dismissal leaves). -/
def blockedToday (today : ℕ) (s : TriggerState) : Prop :=
  s.lastSummaryDate = some today ∧ s.completeShownDate = some today

lemma step_blocked {today : ℕ} {s : TriggerState} (h : blockedToday today s)
    (e : TriggerEvent) :
    (step today s e).2 = false ∧ (step today s e).1 = s ∨ e = TriggerEvent.dismiss := by
  obtain ⟨h1, h2⟩ := h
  cases e with
  | timeCheck hour fetchOk =>
    left
    constructor
    all_goals simp only [step]; split_ifs <;> simp_all
  | completionEvent a f =>
    left
    constructor
    all_goals simp only [step]; split_ifs <;> simp_all
  | dismiss => right; rfl

lemma blocked_preserved {today : ℕ} {s : TriggerState} (h : blockedToday today s)
    (e : TriggerEvent) : blockedToday today (step today s e).1 := by
  rcases step_blocked h e with ⟨-, he⟩ | he
  · rw [he]; exact h
  · subst he; exact ⟨rfl, rfl⟩

lemma showCount_blocked {today : ℕ} : ∀ (evs : List TriggerEvent) (s : TriggerState),
    blockedToday today s → showCount today s evs = 0 := by
  intro evs
  induction evs with
  | nil => intro s _; rfl
  | cons e es ih =>
    intro s h
    have hnext := blocked_preserved h e
    simp only [showCount]
    rcases step_blocked h e with ⟨hf, -⟩ | he
    · simp [hf, ih _ hnext]
    · subst he
      simp only [step]
      simpa using ih _ ⟨rfl, rfl⟩

/-- The all-sessions-complete trigger is disarmed: the ref flag is set or its
marker names today. -/
def completionBlocked (today : ℕ) (s : TriggerState) : Prop :=
  s.hasTriggered = true ∨ s.completeShownDate = some today

lemma completionBlocked_preserved {today : ℕ} {s : TriggerState}
    (h : completionBlocked today s) (e : TriggerEvent) :
    completionBlocked today (step today s e).1 := by
  cases e with
  | timeCheck hour fetchOk =>
    simp only [step]; split_ifs <;> simp_all [completionBlocked]
  | completionEvent a f =>
    simp only [step]; split_ifs <;> simp_all [completionBlocked]
  | dismiss => left; rfl

lemma completion_no_fire {today : ℕ} {s : TriggerState} (h : completionBlocked today s)
    (a f : Bool) : (step today s (TriggerEvent.completionEvent a f)).2 = false := by
  simp only [step]; split_ifs <;> simp_all [completionBlocked]

lemma completionFires_blocked {today : ℕ} : ∀ (evs : List TriggerEvent) (s : TriggerState),
    completionBlocked today s → completionFires today s evs = 0 := by
  intro evs
  induction evs with
  | nil => intro s _; rfl
  | cons e es ih =>
    intro s h
    simp only [completionFires]
    rw [ih _ (completionBlocked_preserved h e)]
    cases e with
    | timeCheck hour fetchOk => rfl
    | completionEvent a f => simp [completion_no_fire h]
    | dismiss => rfl

lemma completion_fire_sets {today : ℕ} {s : TriggerState} {a f : Bool}
    (h : (step today s (TriggerEvent.completionEvent a f)).2 = true) :
    (step today s (TriggerEvent.completionEvent a f)).1.hasTriggered = true := by
  simp only [step] at h ⊢
  split_ifs at h ⊢
  all_goals simp_all

lemma completionFires_le_one {today : ℕ} : ∀ (evs : List TriggerEvent) (s : TriggerState),
    completionFires today s evs ≤ 1 := by
  intro evs
  induction evs with
  | nil => intro s; simp [completionFires]
  | cons e es ih =>
    intro s
    simp only [completionFires]
    cases e with
    | timeCheck hour fetchOk => simpa using ih _
    | completionEvent a f =>
      by_cases hf : (step today s (TriggerEvent.completionEvent a f)).2 = true
      · rw [completionFires_blocked es _ (Or.inl (completion_fire_sets hf))]
        simp [hf]
      · simp only [Bool.not_eq_true] at hf
        simpa [hf] using ih _
    | dismiss => simpa using ih _

/-- The popup is already visible, or the day is fully dismissed. -/
def popupSettled (today : ℕ) (s : TriggerState) : Prop :=
  s.showPopup = true ∨ blockedToday today s

lemma popupSettled_preserved {today : ℕ} {s : TriggerState} (h : popupSettled today s)
    (e : TriggerEvent) : popupSettled today (step today s e).1 := by
  rcases h with h | h
  · cases e with
    | timeCheck hour fetchOk => simp only [step]; split_ifs <;> simp_all [popupSettled]
    | completionEvent a f => simp only [step]; split_ifs <;> simp_all [popupSettled]
    | dismiss => right; exact ⟨rfl, rfl⟩
  · right; exact blocked_preserved h e

lemma no_transition_of_settled {today : ℕ} {s : TriggerState} (h : popupSettled today s)
    (e : TriggerEvent) :
    ¬(s.showPopup = false ∧ (step today s e).1.showPopup = true) := by
  rintro ⟨h0, h1⟩
  rcases h with h | h
  · rw [h0] at h; cases h
  · rcases step_blocked h e with ⟨-, he⟩ | he
    · rw [he] at h1; rw [h0] at h1; cases h1
    · subst he; cases h1

lemma visibleTransitions_settled {today : ℕ} : ∀ (evs : List TriggerEvent) (s : TriggerState),
    popupSettled today s → visibleTransitions today s evs = 0 := by
  intro evs
  induction evs with
  | nil => intro s _; rfl
  | cons e es ih =>
    intro s h
    simp only [visibleTransitions]
    rw [if_neg (no_transition_of_settled h e), ih _ (popupSettled_preserved h e)]

lemma visibleTransitions_le_one {today : ℕ} : ∀ (evs : List TriggerEvent) (s : TriggerState),
    visibleTransitions today s evs ≤ 1 := by
  intro evs
  induction evs with
  | nil => intro s; simp [visibleTransitions]
  | cons e es ih =>
    intro s
    simp only [visibleTransitions]
    by_cases ht : s.showPopup = false ∧ (step today s e).1.showPopup = true
    · rw [visibleTransitions_settled es _ (Or.inl ht.2)]
      simp [ht]
    · rw [if_neg ht]
      simpa using ih _

lemma run_append (today : ℕ) : ∀ (l1 l2 : List TriggerEvent) (s : TriggerState),
    run today s (l1 ++ l2) = run today (run today s l1) l2 := by
  intro l1
  induction l1 with
  | nil => intro l2 s; rfl
  | cons e es ih =>
    intro l2 s
    rw [List.cons_append]
    simp only [run]
    exact ih l2 _

/-- C2 counterexample: two evaluations of the time-of-day trigger after 20:00
with no dismissal in between each perform the show action — the popup is
shown twice in one calendar day, because `checkAndShowSummary` never writes
the "shown today" marker (only `dismissSummary` does). -/
theorem endOfDay_popup_shows_twice :
    showCount 0 initialTriggerState
        [TriggerEvent.timeCheck 21 true, TriggerEvent.timeCheck 21 true] = 2 ∧
      1 < showCount 0 initialTriggerState
        [TriggerEvent.timeCheck 21 true, TriggerEvent.timeCheck 21 true] := by
  decide

/-- C2 (amended): within one calendar day, the all-sessions-complete trigger
performs the show action at most once, the popup transitions from hidden to
visible at most once, and after a dismissal no trigger performs the show
action again; the time-of-day trigger, however, may repeat the show action on
each evaluation after 20:00 until the summary is dismissed. -/
theorem endOfDay_popup_policy (today : ℕ) (evs pre post : List TriggerEvent) :
    completionFires today initialTriggerState evs ≤ 1 ∧
      visibleTransitions today initialTriggerState evs ≤ 1 ∧
      showCount today (run today initialTriggerState (pre ++ [TriggerEvent.dismiss])) post = 0 := by
  refine ⟨completionFires_le_one evs _, visibleTransitions_le_one evs _, ?_⟩
  rw [run_append]
  apply showCount_blocked
  constructor
  all_goals simp [run, step]

/-! ## Schedule-generation edge function (`supabase/functions/generate-schedule/index.ts`) -/

/-- The environment one request runs against. `reqOk` is whether `req.json()`
succeeded; `upstreamOk`/`upstreamStatus` are the AI-gateway `Response.ok` and
`Response.status`; `parseResult` is the outcome of `JSON.parse` on the
markdown-fence-stripped model reply (`some` re-serialised schedule on
success, `none` when the parse threw); the `...ErrMsg` fields carry the
thrown errors' `message` strings. -/
structure GenEnv where
  reqOk : Bool
  reqErrMsg : String
  apiKeyPresent : Bool
  upstreamOk : Bool
  upstreamStatus : ℕ
  parseResult : Option String
  parseErrMsg : String
deriving DecidableEq, Repr

/-- A response body: `{error}` JSON or the parsed schedule JSON. -/
inductive RespBody where
  | errorBody (msg : String)
  | scheduleBody (s : String)
deriving DecidableEq, Repr

/-- An HTTP response of the edge function. -/
structure GenResponse where
  status : ℕ
  body : RespBody
deriving DecidableEq, Repr

/-- The `serve` handler (lines 8-128), as a function of the request's
environment; the second component counts upstream AI-gateway calls. Every
`throw` lands in the final `catch`, which answers 500 with the error's
message (lines 119-127). -/
def handleGenerateSchedule (env : GenEnv) : GenResponse × ℕ :=
  if env.reqOk = false then (⟨500, RespBody.errorBody env.reqErrMsg⟩, 0)
  else if env.apiKeyPresent = false then
    (⟨500, RespBody.errorBody "LOVABLE_API_KEY is not configured"⟩, 0)
  else if env.upstreamOk = false then
    if env.upstreamStatus = 429 then
      (⟨429, RespBody.errorBody "Rate limit exceeded. Please try again in a moment."⟩, 1)
    else if env.upstreamStatus = 402 then
      (⟨402, RespBody.errorBody "AI credits exhausted. Please add credits to continue."⟩, 1)
    else
      (⟨500, RespBody.errorBody ("AI Gateway error: " ++ toString env.upstreamStatus)⟩, 1)
  else
    match env.parseResult with
    | none => (⟨500, RespBody.errorBody env.parseErrMsg⟩, 1)
    | some s => (⟨200, RespBody.scheduleBody s⟩, 1)

/-- C8: upstream 429 and 402 are mapped to same-status responses with their
dedicated user-facing messages; any other upstream failure, and a JSON-parse
failure on the model's reply, are returned as a generic `{error}` response
with status 500; at most one upstream call is made (no retry). -/
theorem generateSchedule_error_mapping (env : GenEnv) (hreq : env.reqOk = true)
    (hkey : env.apiKeyPresent = true) :
    ((env.upstreamOk = false → env.upstreamStatus = 429 →
        handleGenerateSchedule env =
          (⟨429, RespBody.errorBody "Rate limit exceeded. Please try again in a moment."⟩, 1)) ∧
      (env.upstreamOk = false → env.upstreamStatus = 402 →
        handleGenerateSchedule env =
          (⟨402, RespBody.errorBody "AI credits exhausted. Please add credits to continue."⟩, 1)) ∧
      (env.upstreamOk = false → env.upstreamStatus ≠ 429 → env.upstreamStatus ≠ 402 →
        (handleGenerateSchedule env).1.status = 500 ∧
          ∃ m, (handleGenerateSchedule env).1.body = RespBody.errorBody m) ∧
      (env.upstreamOk = true → env.parseResult = none →
        (handleGenerateSchedule env).1.status = 500 ∧
          ∃ m, (handleGenerateSchedule env).1.body = RespBody.errorBody m) ∧
      (handleGenerateSchedule env).2 ≤ 1) := by
  refine ⟨?_, ?_, ?_, ?_, ?_⟩
  · intro h1 h2
    simp [handleGenerateSchedule, hreq, hkey, h1, h2]
  · intro h1 h2
    simp [handleGenerateSchedule, hreq, hkey, h1, h2]
  · intro h1 h2 h3
    simp [handleGenerateSchedule, hreq, hkey, h1, h2, h3]
  · intro h1 h2
    simp [handleGenerateSchedule, hreq, hkey, h1, h2]
  · simp only [handleGenerateSchedule, hreq, hkey]
    cases hp : env.parseResult <;> split_ifs <;> simp

/-- C8 witness: the four failure shapes at concrete environments. -/
theorem generateSchedule_error_mapping_witness :
    handleGenerateSchedule ⟨true, "", true, false, 429, none, ""⟩ =
        (⟨429, RespBody.errorBody "Rate limit exceeded. Please try again in a moment."⟩, 1) ∧
      handleGenerateSchedule ⟨true, "", true, false, 402, none, ""⟩ =
        (⟨402, RespBody.errorBody "AI credits exhausted. Please add credits to continue."⟩, 1) ∧
      ((handleGenerateSchedule ⟨true, "", true, false, 503, none, ""⟩).1.status = 500 ∧
        ∃ m, (handleGenerateSchedule ⟨true, "", true, false, 503, none, ""⟩).1.body =
          RespBody.errorBody m) ∧
      ((handleGenerateSchedule ⟨true, "", true, true, 200, none, "Unexpected token"⟩).1.status = 500 ∧
        ∃ m, (handleGenerateSchedule ⟨true, "", true, true, 200, none, "Unexpected token"⟩).1.body =
          RespBody.errorBody m) ∧
      (handleGenerateSchedule ⟨true, "", true, false, 429, none, ""⟩).2 ≤ 1 :=
  ⟨(generateSchedule_error_mapping ⟨true, "", true, false, 429, none, ""⟩ rfl rfl).1 rfl rfl,
    (generateSchedule_error_mapping ⟨true, "", true, false, 402, none, ""⟩ rfl rfl).2.1 rfl rfl,
    (generateSchedule_error_mapping ⟨true, "", true, false, 503, none, ""⟩ rfl rfl).2.2.1 rfl
      (by decide) (by decide),
    (generateSchedule_error_mapping ⟨true, "", true, true, 200, none, "Unexpected token"⟩ rfl
        rfl).2.2.2.1 rfl rfl,
    (generateSchedule_error_mapping ⟨true, "", true, false, 429, none, ""⟩ rfl rfl).2.2.2.2⟩

end MindfulStudyHub

